import Mathlib

/-!
Verification of the APS fitter wiring layer (`menpofit/aps/fitter.py`).

The module under verification is configuration glue: `APSFitter` stores a
trained APS model and packages per-scale fitting results, and
`GaussNewtonAPSFitter` builds one Gauss-Newton algorithm object per scale by
zipping the model's per-scale sub-model lists with a normalized sampling list.

External collaborators (the trained `GenerativeAPS` model class, the
`MultiScaleParametricFitter` orchestration base, `checks.check_sampling`,
`checks`-based shape-component validation, the appearance model's `mean()`,
`OrthoPDM`/`PDM`, `GaussNewtonBaseInterface` and the solver classes) are not
part of the supplied source; they are modelled from the specification as
abstract data carriers, since the code under verification only constructs and
forwards them.

Python attributes set by `__init__` methods are modelled as `Option`-valued
fields of a `FitterState` record (`none` = attribute never assigned), and
Python exceptions as `Except PyError`.
-/

set_option autoImplicit false

namespace APSVerify

/-- Modelled from the spec: an opaque trained shape sub-model (external class,
not in the supplied source); `objId` stands for Python object identity. -/
structure ShapeModel where
  objId : Nat
deriving DecidableEq, Repr, Inhabited

/-- Modelled from the spec: an opaque trained pairwise deformation sub-model
(external class, not in the supplied source). -/
structure DeformationModel where
  objId : Nat
deriving DecidableEq, Repr, Inhabited

/-- Modelled from the spec: the mean instance of an appearance model, used as
the fitting template (external object, not in the supplied source). -/
structure Template where
  objId : Nat
deriving DecidableEq, Repr, Inhabited

/-- Modelled from the spec: an opaque trained per-part appearance sub-model.
Its `mean()` operation (external, not in the supplied source) is modelled as
returning a stored mean instance. -/
structure AppearanceModel where
  objId : Nat
  meanInstance : Template
deriving DecidableEq, Repr, Inhabited

/-- Modelled from the spec: the external `mean()` call on an appearance model,
which computes the appearance model's mean instance. -/
def AppearanceModel.mean (am : AppearanceModel) : Template :=
  am.meanInstance

/-- Modelled from the spec: a per-scale patch shape/size of the trained model. -/
structure PatchShape where
  objId : Nat
deriving DecidableEq, Repr, Inhabited

/-- Modelled from the spec: a per-scale patch-normalisation method of the
trained model. -/
structure PatchNorm where
  objId : Nat
deriving DecidableEq, Repr, Inhabited

/-- Modelled from the spec: one scale value of the coarse-to-fine pyramid. -/
structure Scale where
  objId : Nat
deriving DecidableEq, Repr, Inhabited

/-- Modelled from the spec: a landmark shape (reference shape, ground-truth
shape). -/
structure Shape where
  objId : Nat
deriving DecidableEq, Repr, Inhabited

/-- Modelled from the spec: the holistic feature extractor configuration of the
trained model. -/
structure Features where
  objId : Nat
deriving DecidableEq, Repr, Inhabited

/-- Modelled from the spec: an image handed to the fitting procedure. -/
structure Image where
  objId : Nat
deriving DecidableEq, Repr, Inhabited

/-- Modelled from the spec: one per-scale raw algorithm fitting result. -/
structure AlgResultObj where
  objId : Nat
deriving DecidableEq, Repr, Inhabited

/-- Modelled from the spec: a per-scale affine correction transform. -/
structure AffineT where
  objId : Nat
deriving DecidableEq, Repr, Inhabited

/-- Modelled from the spec: a per-scale rescale-correction transform. -/
structure ScaleT where
  objId : Nat
deriving DecidableEq, Repr, Inhabited

/-- Modelled from the spec: one normalized per-scale sampling entry — `None`
(no sub-sampling), an integer sub-sampling step, or an explicit mask. -/
inductive SamplingValue where
  | noSampling
  | step (n : Nat)
  | mask (m : List Bool)
deriving DecidableEq, Repr, Inhabited

/-- Modelled from the spec: the raw `sampling` argument of the constructor —
either a single value (applied to every scale) or an explicit per-scale list. -/
inductive SamplingSpec where
  | single (v : SamplingValue)
  | list (vs : List SamplingValue)
deriving DecidableEq, Repr, Inhabited

/-- Modelled from the spec: one shape-component selection value — an exact
count, a variance percentage, or use-all. -/
inductive NShapeValue where
  | count (n : Nat)
  | fracPercent (p : Nat)
  | useAll
deriving DecidableEq, Repr, Inhabited

/-- Modelled from the spec: the raw `n_shape` argument — `None`, a single value
applied to every scale, or a per-scale list. -/
inductive NShapeSpec where
  | noSelection
  | single (v : NShapeValue)
  | perScale (vs : List NShapeValue)
deriving DecidableEq, Repr, Inhabited

/-- Python-level failures surfaced by the constructor: validation errors from
the external `checks` helpers, attribute errors on unset attributes, and index
errors from out-of-range list indexing. -/
inductive PyError where
  | valueError
  | attributeError
  | indexError
deriving DecidableEq, Repr, Inhabited

/-- Modelled from the spec: the trained generative APS model (class
`GenerativeAPS`, external to the supplied source): per-scale appearance, shape
and deformation sub-model lists, per-scale patch geometry lists, and the global
attributes read by the fitter. `objId` stands for Python object identity. -/
structure APS where
  objId : Nat
  appearance_models : List AppearanceModel
  shape_models : List ShapeModel
  deformation_models : List DeformationModel
  patch_shape : List PatchShape
  patch_normalisation : List PatchNorm
  scales : List Scale
  reference_shape : Shape
  holistic_features : Features
  n_scales : Nat
  use_procrustes : Bool
deriving DecidableEq, Repr, Inhabited

/-- Point-distribution-model wrappers built around a shape sub-model: the
Procrustes-normalized variant `OrthoPDM` or the plain variant `PDM`
(external classes; only which one is constructed, and from which shape model,
is observable in the source). -/
inductive PDMWrapper where
  | OrthoPDM (sm : ShapeModel)
  | PDM (sm : ShapeModel)
deriving DecidableEq, Repr, Inhabited

/-- Modelled from the spec: the solver-interface wrapper
`GaussNewtonBaseInterface(am, dm, pdm, use_deformation_cost, template, s,
patch_shape[j], patch_normalisation[j])` — a record of exactly the constructor
arguments the source passes. -/
structure GaussNewtonBaseInterface where
  appearance_model : AppearanceModel
  deformation_model : DeformationModel
  pdm : PDMWrapper
  use_deformation_cost : Bool
  template : Template
  sampling : SamplingValue
  patch_shape : PatchShape
  patch_normalisation : PatchNorm
deriving DecidableEq, Repr, Inhabited

/-- Modelled from the spec: the Gauss-Newton solver class passed as
`gn_algorithm_cls` — the default `Inverse`, or any other class token. -/
inductive GNAlgCls where
  | Inverse
  | custom (tag : Nat)
deriving DecidableEq, Repr, Inhabited

/-- Modelled from the spec: a per-scale algorithm object
`gn_algorithm_cls(interface)` — the chosen solver class applied to one
interface object. -/
structure GNAlgorithm where
  cls : GNAlgCls
  interface : GaussNewtonBaseInterface
deriving DecidableEq, Repr, Inhabited

/-- The aggregate result object `APSResult(results=..., scales=...,
affine_transforms=..., scale_transforms=..., image=..., gt_shape=...)`
(external class; the source only forwards these six constructor arguments). -/
structure APSResult where
  results : List AlgResultObj
  scales : List Scale
  affine_transforms : List AffineT
  scale_transforms : List ScaleT
  image : Image
  gt_shape : Option Shape
deriving DecidableEq, Repr, Inhabited

/-- Python object state of a fitter: each field is an attribute that an
`__init__` method may or may not have assigned (`none` = never assigned).
`_model` and `_sampling` are set directly by the fitters in the source;
`_scales`, `_reference_shape` and `_holistic_features` are the attributes the
external `MultiScaleParametricFitter` base initializer would set. -/
structure FitterState (α : Type) where
  _model : Option APS := none
  _sampling : Option (List SamplingValue) := none
  algorithms : Option (List α) := none
  _scales : Option (List Scale) := none
  _reference_shape : Option Shape := none
  _holistic_features : Option Features := none
deriving DecidableEq, Repr, Inhabited

/-- A freshly allocated fitter object, before any attribute assignment. -/
def emptyFitter (α : Type) : FitterState α := {}

/-- The `aps` property of `APSFitter`: `return self._model`. -/
def FitterState.aps {α : Type} (f : FitterState α) : Option APS :=
  f._model

/-- Modelled from the spec: `MultiScaleParametricFitter.__init__` (the
multi-scale orchestration base, external to the supplied source): accepts
scales, reference shape, holistic-feature configuration and the algorithm
list, and stores them on the object. -/
def MultiScaleParametricFitter_init {α : Type} (scales : List Scale)
    (reference_shape : Shape) (holistic_features : Features)
    (algorithms : List α) (self : FitterState α) : FitterState α :=
  { self with
    _scales := some scales
    _reference_shape := some reference_shape
    _holistic_features := some holistic_features
    algorithms := some algorithms }

/-- `APSFitter.__init__(self, aps, algorithms)`: stores `self._model = aps`,
then calls the superclass initializer with the model's scales, reference shape
and holistic features together with the algorithm list. -/
def APSFitter_init {α : Type} (aps : APS) (algorithms : List α) :
    FitterState α :=
  MultiScaleParametricFitter_init aps.scales aps.reference_shape
    aps.holistic_features algorithms
    { emptyFitter α with _model := some aps }

/-- `APSFitter._fitter_result`: constructs `APSResult` from the inputs plus
`self.scales` (the attribute stored by the orchestration base; reading it on
an object that never set it is a Python `AttributeError`). The unchanged
fitter object is returned alongside to record the absence of side effects. -/
def fitter_result {α : Type} (self : FitterState α) (image : Image)
    (algorithm_results : List AlgResultObj) (affine_transforms : List AffineT)
    (scale_transforms : List ScaleT) (gt_shape : Option Shape) :
    Except PyError (APSResult × FitterState α) :=
  match self._scales with
  | some sc =>
      Except.ok
        ({ results := algorithm_results
           scales := sc
           affine_transforms := affine_transforms
           scale_transforms := scale_transforms
           image := image
           gt_shape := gt_shape }, self)
  | none => Except.error PyError.attributeError

/-- Modelled from the spec: the external `checks.check_sampling(sampling,
n_scales)` routine — it normalizes the sampling specification into exactly one
entry per scale (a single value is replicated per scale) and fails with a
validation error on a count mismatch. -/
def check_sampling (sampling : SamplingSpec) (n_scales : Nat) :
    Except PyError (List SamplingValue) :=
  match sampling with
  | SamplingSpec.single v => Except.ok (List.replicate n_scales v)
  | SamplingSpec.list vs =>
      if vs.length = n_scales then Except.ok vs
      else Except.error PyError.valueError

/-- Modelled from the spec: the external shape-component validation invoked by
`self._check_n_shape(n_shape)` — a single value or `None` is accepted, a
per-scale list is validated against the scale count and fails with a
validation error on a mismatch; it only marks active components on the shape
models and stores nothing on the fitter. -/
def check_n_shape (n_shape : NShapeSpec) (n_scales : Nat) :
    Except PyError Unit :=
  match n_shape with
  | NShapeSpec.noSelection => Except.ok ()
  | NShapeSpec.single _ => Except.ok ()
  | NShapeSpec.perScale vs =>
      if vs.length = n_scales then Except.ok ()
      else Except.error PyError.valueError

/-- Python's four-argument `zip`: truncates to the shortest input list. -/
def zip4 {α β γ δ : Type} :
    List α → List β → List γ → List δ → List (α × β × γ × δ)
  | a :: la, b :: lb, c :: lc, d :: ld => (a, b, c, d) :: zip4 la lb lc ld
  | _, _, _, _ => []

/-- The body of the `for j, (am, sm, dm, s) in enumerate(zip(...))` loop of
`GaussNewtonAPSFitter._set_up`, one scale at a time: compute the template as
`am.mean()`, choose `OrthoPDM` or `PDM` by `self._model.use_procrustes`, build
the interface from the loop entries plus `self.aps.patch_shape[j]` and
`self.aps.patch_normalisation[j]` (an out-of-range index is a Python
`IndexError`), and append `gn_algorithm_cls(interface)`. -/
def set_up_loop (aps : APS) (gn_algorithm_cls : GNAlgCls)
    (use_deformation_cost : Bool) :
    Nat →
    List (AppearanceModel × ShapeModel × DeformationModel × SamplingValue) →
    Except PyError (List GNAlgorithm)
  | _, [] => Except.ok []
  | j, (am, sm, dm, s) :: rest => do
    let template := am.mean
    let pdm := if aps.use_procrustes then PDMWrapper.OrthoPDM sm
               else PDMWrapper.PDM sm
    let ps ← (match aps.patch_shape[j]? with
              | some ps => Except.ok ps
              | none => Except.error PyError.indexError)
    let pn ← (match aps.patch_normalisation[j]? with
              | some pn => Except.ok pn
              | none => Except.error PyError.indexError)
    let alg : GNAlgorithm :=
      { cls := gn_algorithm_cls
        interface :=
          { appearance_model := am
            deformation_model := dm
            pdm := pdm
            use_deformation_cost := use_deformation_cost
            template := template
            sampling := s
            patch_shape := ps
            patch_normalisation := pn } }
    let restAlgs ← set_up_loop aps gn_algorithm_cls use_deformation_cost
      (j + 1) rest
    Except.ok (alg :: restAlgs)

/-- `GaussNewtonAPSFitter._set_up(self, gn_algorithm_cls,
use_deformation_cost)`: iterates over `zip(self.aps.appearance_models,
self.aps.shape_models, self.aps.deformation_models, self._sampling)` and
assigns the accumulated list to `self.algorithms`. -/
def set_up (self : FitterState GNAlgorithm) (gn_algorithm_cls : GNAlgCls)
    (use_deformation_cost : Bool) :
    Except PyError (FitterState GNAlgorithm) :=
  match self.aps, self._sampling with
  | some aps, some svs => do
      let algs ← set_up_loop aps gn_algorithm_cls use_deformation_cost 0
        (zip4 aps.appearance_models aps.shape_models aps.deformation_models
          svs)
      Except.ok { self with algorithms := some algs }
  | _, _ => Except.error PyError.attributeError

/-- `GaussNewtonAPSFitter.__init__(self, aps, gn_algorithm_cls, n_shape,
use_deformation_cost, sampling)`: sets `self._model = aps`, runs
`self._check_n_shape(n_shape)`, sets
`self._sampling = checks.check_sampling(sampling, aps.n_scales)`, and runs
`self._set_up(...)`. Note that it never calls the superclass initializer. -/
def GaussNewtonAPSFitter_init (aps : APS) (gn_algorithm_cls : GNAlgCls)
    (n_shape : NShapeSpec) (use_deformation_cost : Bool)
    (sampling : SamplingSpec) : Except PyError (FitterState GNAlgorithm) := do
  let self0 : FitterState GNAlgorithm :=
    { emptyFitter GNAlgorithm with _model := some aps }
  let _ ← check_n_shape n_shape aps.n_scales
  let svs ← check_sampling sampling aps.n_scales
  let self1 := { self0 with _sampling := some svs }
  set_up self1 gn_algorithm_cls use_deformation_cost

/-- The algorithm object that one iteration of the `_set_up` loop produces at
scale index `j` from the zipped entries `(am, sm, dm, s)`: used as the
closed-form characterization of `set_up_loop` when the patch indices are in
bounds. -/
def loopAlg (aps : APS) (gn_algorithm_cls : GNAlgCls)
    (use_deformation_cost : Bool) (j : Nat) (am : AppearanceModel)
    (sm : ShapeModel) (dm : DeformationModel) (s : SamplingValue) :
    GNAlgorithm :=
  { cls := gn_algorithm_cls
    interface :=
      { appearance_model := am
        deformation_model := dm
        pdm := if aps.use_procrustes then PDMWrapper.OrthoPDM sm
               else PDMWrapper.PDM sm
        use_deformation_cost := use_deformation_cost
        template := am.mean
        sampling := s
        patch_shape := aps.patch_shape.getD j default
        patch_normalisation := aps.patch_normalisation.getD j default } }

/-- A well-formed concrete two-scale trained model: every per-scale list has
exactly `n_scales = 2` entries. -/
def apsA : APS :=
  { objId := 0
    appearance_models := [⟨0, ⟨10⟩⟩, ⟨1, ⟨11⟩⟩]
    shape_models := [⟨20⟩, ⟨21⟩]
    deformation_models := [⟨30⟩, ⟨31⟩]
    patch_shape := [⟨40⟩, ⟨41⟩]
    patch_normalisation := [⟨50⟩, ⟨51⟩]
    scales := [⟨60⟩, ⟨61⟩]
    reference_shape := ⟨70⟩
    holistic_features := ⟨80⟩
    n_scales := 2
    use_procrustes := true }

/-- A degenerate concrete trained model: it declares `n_scales = 2` but its
appearance, shape and deformation lists hold a single entry each. -/
def apsB : APS :=
  { objId := 1
    appearance_models := [⟨0, ⟨10⟩⟩]
    shape_models := [⟨20⟩]
    deformation_models := [⟨30⟩]
    patch_shape := [⟨40⟩, ⟨41⟩]
    patch_normalisation := [⟨50⟩, ⟨51⟩]
    scales := [⟨60⟩, ⟨61⟩]
    reference_shape := ⟨70⟩
    holistic_features := ⟨80⟩
    n_scales := 2
    use_procrustes := false }

/-- The fitter object produced by constructing `GaussNewtonAPSFitter` on
`apsA` with the default arguments. -/
def fitterA : FitterState GNAlgorithm :=
  (GaussNewtonAPSFitter_init apsA GNAlgCls.Inverse NShapeSpec.noSelection true
    (SamplingSpec.single SamplingValue.noSampling)).toOption.getD default

/-! Helper lemmas shared by the claim theorems. -/

/-- The normalized sampling list produced by `check_sampling` always has
exactly one entry per scale. -/
theorem check_sampling_length {sp : SamplingSpec} {n : Nat}
    {svs : List SamplingValue} (h : check_sampling sp n = Except.ok svs) :
    svs.length = n := by
  cases sp with
  | single v =>
      simp only [check_sampling] at h
      cases h
      simp
  | list vs =>
      simp only [check_sampling] at h
      split at h
      · cases h
        assumption
      · cases h

/-- Length of the four-argument zip: the shortest of the four input lists. -/
theorem zip4_length {α β γ δ : Type} (la : List α) (lb : List β) (lc : List γ)
    (ld : List δ) :
    (zip4 la lb lc ld).length =
      min la.length (min lb.length (min lc.length ld.length)) := by
  induction la generalizing lb lc ld with
  | nil => simp [zip4]
  | cons a la ih =>
      cases lb with
      | nil => simp [zip4]
      | cons b lb =>
          cases lc with
          | nil =>
              simp [zip4]
          | cons c lc =>
              cases ld with
              | nil => simp [zip4]
              | cons d ld =>
                  simp only [zip4, List.length_cons, ih]
                  omega

/-- Entrywise content of the four-argument zip. -/
theorem zip4_getElem?_eq_some {α β γ δ : Type} (la : List α) (lb : List β)
    (lc : List γ) (ld : List δ) (i : Nat) (a : α) (b : β) (c : γ) (d : δ)
    (ha : la[i]? = some a) (hb : lb[i]? = some b) (hc : lc[i]? = some c)
    (hd : ld[i]? = some d) :
    (zip4 la lb lc ld)[i]? = some (a, b, c, d) := by
  induction la generalizing lb lc ld i with
  | nil => simp at ha
  | cons x la ih =>
      cases lb with
      | nil => simp at hb
      | cons y lb =>
          cases lc with
          | nil => simp at hc
          | cons z lc =>
              cases ld with
              | nil => simp at hd
              | cons w ld =>
                  cases i with
                  | zero =>
                      simp at ha hb hc hd
                      simp [zip4, ha, hb, hc, hd]
                  | succ i =>
                      simp only [List.getElem?_cons_succ] at ha hb hc hd
                      simpa [zip4] using ih lb lc ld i ha hb hc hd

/-- When a list index is in bounds, `l[j]?` is the `getD` value. -/
theorem getElem?_eq_some_getD {α : Type} [Inhabited α] (l : List α) (j : Nat)
    (h : j < l.length) : l[j]? = some (l.getD j default) := by
  simp [List.getD_eq_getElem?_getD, List.getElem?_eq_getElem, h]

/-- Characterization of the `_set_up` loop when the patch-geometry indices it
touches are all in bounds: it succeeds, produces one algorithm per zipped
entry, and the algorithm at offset `i` is built from the entry at offset `i`
at scale index `j + i`. -/
theorem set_up_loop_ok (aps : APS) (cls : GNAlgCls) (udc : Bool)
    (l : List (AppearanceModel × ShapeModel × DeformationModel × SamplingValue))
    (j : Nat) (hps : j + l.length ≤ aps.patch_shape.length)
    (hpn : j + l.length ≤ aps.patch_normalisation.length) :
    ∃ algs, set_up_loop aps cls udc j l = Except.ok algs ∧
      algs.length = l.length ∧
      ∀ i am sm dm s, l[i]? = some (am, sm, dm, s) →
        algs[i]? = some (loopAlg aps cls udc (j + i) am sm dm s) := by
  induction l generalizing j with
  | nil =>
      refine ⟨[], by simp [set_up_loop], rfl, ?_⟩
      intro i am sm dm s h
      simp at h
  | cons e rest ih =>
      obtain ⟨am, sm, dm, s⟩ := e
      have h1 : j < aps.patch_shape.length := by
        simp only [List.length_cons] at hps
        omega
      have h2 : j < aps.patch_normalisation.length := by
        simp only [List.length_cons] at hpn
        omega
      have hps_j := getElem?_eq_some_getD aps.patch_shape j h1
      have hpn_j := getElem?_eq_some_getD aps.patch_normalisation j h2
      have hps' : (j + 1) + rest.length ≤ aps.patch_shape.length := by
        simp only [List.length_cons] at hps
        omega
      have hpn' : (j + 1) + rest.length ≤ aps.patch_normalisation.length := by
        simp only [List.length_cons] at hpn
        omega
      obtain ⟨restAlgs, hrest, hlen, hget⟩ := ih (j + 1) hps' hpn'
      refine ⟨loopAlg aps cls udc j am sm dm s :: restAlgs, ?_, by simp [hlen], ?_⟩
      · simp only [set_up_loop, hps_j, hpn_j, hrest, loopAlg,
          AppearanceModel.mean, bind, Except.bind]
      · intro i am' sm' dm' s' h
        cases i with
        | zero =>
            simp only [List.getElem?_cons_zero, Option.some_inj] at h
            obtain ⟨rfl, rfl, rfl, rfl⟩ := h
            simp
        | succ i =>
            simp only [List.getElem?_cons_succ] at h
            have := hget i am' sm' dm' s' h
            have hidx : j + 1 + i = j + (i + 1) := by omega
            rw [hidx] at this
            simpa using this

/-- Every algorithm produced by the `_set_up` loop carries a PDM wrapper whose
variant is dictated by the model's `use_procrustes` flag. -/
theorem set_up_loop_pdm (aps : APS) (cls : GNAlgCls) (udc : Bool)
    (l : List (AppearanceModel × ShapeModel × DeformationModel × SamplingValue))
    (j : Nat) (algs : List GNAlgorithm)
    (h : set_up_loop aps cls udc j l = Except.ok algs) :
    ∀ alg ∈ algs,
      (aps.use_procrustes = true →
        ∃ sm, alg.interface.pdm = PDMWrapper.OrthoPDM sm) ∧
      (aps.use_procrustes = false →
        ∃ sm, alg.interface.pdm = PDMWrapper.PDM sm) := by
  induction l generalizing j algs with
  | nil =>
      simp only [set_up_loop] at h
      cases h
      intro alg halg
      simp at halg
  | cons e rest ih =>
      obtain ⟨am, sm, dm, s⟩ := e
      simp only [set_up_loop, bind, Except.bind] at h
      cases hps : aps.patch_shape[j]? with
      | none => rw [hps] at h; cases h
      | some ps =>
          rw [hps] at h
          cases hpn : aps.patch_normalisation[j]? with
          | none => rw [hpn] at h; cases h
          | some pn =>
              rw [hpn] at h
              cases hrest : set_up_loop aps cls udc (j + 1) rest with
              | error e => rw [hrest] at h; cases h
              | ok restAlgs =>
                  rw [hrest] at h
                  cases h
                  intro alg halg
                  rcases List.mem_cons.mp halg with rfl | hmem
                  · constructor
                    · intro hflag
                      exact ⟨sm, by simp [hflag]⟩
                    · intro hflag
                      exact ⟨sm, by simp [hflag]⟩
                  · exact ih (j + 1) restAlgs hrest alg hmem

/-- Successful construction of `GaussNewtonAPSFitter`, characterized: when the
two validators accept and the wiring loop succeeds, the resulting object state
is exactly `_model`, `_sampling` and `algorithms`, with the base-initializer
attributes never assigned. -/
theorem gn_init_ok (aps : APS) (cls : GNAlgCls) (ns : NShapeSpec) (udc : Bool)
    (sp : SamplingSpec) (svs : List SamplingValue) (algs : List GNAlgorithm)
    (hns : check_n_shape ns aps.n_scales = Except.ok ())
    (hsp : check_sampling sp aps.n_scales = Except.ok svs)
    (hloop : set_up_loop aps cls udc 0
      (zip4 aps.appearance_models aps.shape_models aps.deformation_models svs)
        = Except.ok algs) :
    GaussNewtonAPSFitter_init aps cls ns udc sp =
      Except.ok
        { _model := some aps
          _sampling := some svs
          algorithms := some algs
          _scales := none
          _reference_shape := none
          _holistic_features := none } := by
  simp only [GaussNewtonAPSFitter_init, emptyFitter, bind, Except.bind, hns,
    hsp, set_up, FitterState.aps, hloop]

/-- When the shape-component validator rejects, construction surfaces exactly
its error. -/
theorem gn_init_err_nshape (aps : APS) (cls : GNAlgCls) (ns : NShapeSpec)
    (udc : Bool) (sp : SamplingSpec) (e : PyError)
    (hns : check_n_shape ns aps.n_scales = Except.error e) :
    GaussNewtonAPSFitter_init aps cls ns udc sp = Except.error e := by
  simp only [GaussNewtonAPSFitter_init, emptyFitter, bind, Except.bind, hns]

/-- When the sampling validator rejects, construction surfaces exactly its
error. -/
theorem gn_init_err_sampling (aps : APS) (cls : GNAlgCls) (ns : NShapeSpec)
    (udc : Bool) (sp : SamplingSpec) (e : PyError)
    (hns : check_n_shape ns aps.n_scales = Except.ok ())
    (hsp : check_sampling sp aps.n_scales = Except.error e) :
    GaussNewtonAPSFitter_init aps cls ns udc sp = Except.error e := by
  simp only [GaussNewtonAPSFitter_init, emptyFitter, bind, Except.bind, hns,
    hsp]

/-- When the wiring loop raises (patch-geometry index out of range),
construction surfaces exactly its error. -/
theorem gn_init_err_loop (aps : APS) (cls : GNAlgCls) (ns : NShapeSpec)
    (udc : Bool) (sp : SamplingSpec) (svs : List SamplingValue) (e : PyError)
    (hns : check_n_shape ns aps.n_scales = Except.ok ())
    (hsp : check_sampling sp aps.n_scales = Except.ok svs)
    (hloop : set_up_loop aps cls udc 0
      (zip4 aps.appearance_models aps.shape_models aps.deformation_models svs)
        = Except.error e) :
    GaussNewtonAPSFitter_init aps cls ns udc sp = Except.error e := by
  simp only [GaussNewtonAPSFitter_init, emptyFitter, bind, Except.bind, hns,
    hsp, set_up, FitterState.aps, hloop]

/-- Exhaustive case analysis of `GaussNewtonAPSFitter` construction: it either
surfaces an error, or succeeds with exactly the state assembled by the
constructor body. -/
theorem gn_init_cases (aps : APS) (cls : GNAlgCls) (ns : NShapeSpec)
    (udc : Bool) (sp : SamplingSpec) :
    (∃ e, GaussNewtonAPSFitter_init aps cls ns udc sp = Except.error e) ∨
    (∃ svs algs, check_sampling sp aps.n_scales = Except.ok svs ∧
      set_up_loop aps cls udc 0
        (zip4 aps.appearance_models aps.shape_models aps.deformation_models
          svs) = Except.ok algs ∧
      GaussNewtonAPSFitter_init aps cls ns udc sp =
        Except.ok
          { _model := some aps
            _sampling := some svs
            algorithms := some algs
            _scales := none
            _reference_shape := none
            _holistic_features := none }) := by
  cases hns : check_n_shape ns aps.n_scales with
  | error e => exact Or.inl ⟨e, gn_init_err_nshape aps cls ns udc sp e hns⟩
  | ok u =>
      cases u
      cases hsp : check_sampling sp aps.n_scales with
      | error e =>
          exact Or.inl ⟨e, gn_init_err_sampling aps cls ns udc sp e hns hsp⟩
      | ok svs =>
          cases hloop : set_up_loop aps cls udc 0
              (zip4 aps.appearance_models aps.shape_models
                aps.deformation_models svs) with
          | error e =>
              exact Or.inl
                ⟨e, gn_init_err_loop aps cls ns udc sp svs e hns hsp hloop⟩
          | ok algs =>
              exact Or.inr
                ⟨svs, algs, rfl, hloop,
                  gn_init_ok aps cls ns udc sp svs algs hns hsp hloop⟩

/-- Full characterization of a successful construction on a well-formed model:
the fitter state is exactly the three constructor-assigned attributes, and the
algorithm at index `j` is the one the loop builds from the `j`-th entries. -/
theorem gn_init_full (aps : APS) (cls : GNAlgCls) (ns : NShapeSpec)
    (udc : Bool) (sp : SamplingSpec) (svs : List SamplingValue)
    (hns : check_n_shape ns aps.n_scales = Except.ok ())
    (hsp : check_sampling sp aps.n_scales = Except.ok svs)
    (ham : aps.appearance_models.length = aps.n_scales)
    (hsm : aps.shape_models.length = aps.n_scales)
    (hdm : aps.deformation_models.length = aps.n_scales)
    (hps : aps.patch_shape.length = aps.n_scales)
    (hpn : aps.patch_normalisation.length = aps.n_scales) :
    ∃ algs, GaussNewtonAPSFitter_init aps cls ns udc sp =
        Except.ok
          { _model := some aps
            _sampling := some svs
            algorithms := some algs
            _scales := none
            _reference_shape := none
            _holistic_features := none } ∧
      algs.length = aps.n_scales ∧
      ∀ j, j < aps.n_scales →
        algs[j]? = some (loopAlg aps cls udc j
          (aps.appearance_models.getD j default)
          (aps.shape_models.getD j default)
          (aps.deformation_models.getD j default)
          (svs.getD j default)) := by
  have hsvs : svs.length = aps.n_scales := check_sampling_length hsp
  have hz : (zip4 aps.appearance_models aps.shape_models
      aps.deformation_models svs).length = aps.n_scales := by
    rw [zip4_length, ham, hsm, hdm, hsvs]
    omega
  have hb1 : 0 + (zip4 aps.appearance_models aps.shape_models
      aps.deformation_models svs).length ≤ aps.patch_shape.length := by omega
  have hb2 : 0 + (zip4 aps.appearance_models aps.shape_models
      aps.deformation_models svs).length ≤
      aps.patch_normalisation.length := by omega
  obtain ⟨algs, hloop, hlen, hget⟩ := set_up_loop_ok aps cls udc _ 0 hb1 hb2
  refine ⟨algs, gn_init_ok aps cls ns udc sp svs algs hns hsp hloop,
    by omega, ?_⟩
  intro j hj
  have hza := getElem?_eq_some_getD aps.appearance_models j (by omega)
  have hzs := getElem?_eq_some_getD aps.shape_models j (by omega)
  have hzd := getElem?_eq_some_getD aps.deformation_models j (by omega)
  have hzv := getElem?_eq_some_getD svs j (by omega)
  have hzip := zip4_getElem?_eq_some aps.appearance_models aps.shape_models
    aps.deformation_models svs j _ _ _ _ hza hzs hzd hzv
  have := hget j _ _ _ _ hzip
  simpa using this

/-! Claim theorems. -/

/-- C1: for every trained APS model with `N` scales whose per-scale appearance,
shape, and deformation model lists each have length `N`, and every sampling
specification that the sampling validator normalizes to `N` entries,
constructing `GaussNewtonAPSFitter` produces an algorithms list with exactly
`N` per-scale algorithm objects, where the `j`-th object is built from the
`j`-th appearance, shape, deformation and sampling entries, in scale order. -/
theorem gn_fitter_builds_n_algorithms_in_scale_order (aps : APS)
    (cls : GNAlgCls) (ns : NShapeSpec) (udc : Bool) (sp : SamplingSpec)
    (svs : List SamplingValue)
    (hns : check_n_shape ns aps.n_scales = Except.ok ())
    (hsp : check_sampling sp aps.n_scales = Except.ok svs)
    (ham : aps.appearance_models.length = aps.n_scales)
    (hsm : aps.shape_models.length = aps.n_scales)
    (hdm : aps.deformation_models.length = aps.n_scales)
    (hps : aps.patch_shape.length = aps.n_scales)
    (hpn : aps.patch_normalisation.length = aps.n_scales) :
    ∃ f algs, GaussNewtonAPSFitter_init aps cls ns udc sp = Except.ok f ∧
      f.algorithms = some algs ∧ algs.length = aps.n_scales ∧
      ∀ j, j < aps.n_scales →
        algs[j]? = some
          { cls := cls
            interface :=
              { appearance_model := aps.appearance_models.getD j default
                deformation_model := aps.deformation_models.getD j default
                pdm := if aps.use_procrustes then
                         PDMWrapper.OrthoPDM (aps.shape_models.getD j default)
                       else PDMWrapper.PDM (aps.shape_models.getD j default)
                use_deformation_cost := udc
                template :=
                  (aps.appearance_models.getD j default).mean
                sampling := svs.getD j default
                patch_shape := aps.patch_shape.getD j default
                patch_normalisation :=
                  aps.patch_normalisation.getD j default } } := by
  have hsvs : svs.length = aps.n_scales := check_sampling_length hsp
  have hz : (zip4 aps.appearance_models aps.shape_models
      aps.deformation_models svs).length = aps.n_scales := by
    rw [zip4_length, ham, hsm, hdm, hsvs]
    omega
  have hb1 : 0 + (zip4 aps.appearance_models aps.shape_models
      aps.deformation_models svs).length ≤ aps.patch_shape.length := by omega
  have hb2 : 0 + (zip4 aps.appearance_models aps.shape_models
      aps.deformation_models svs).length ≤
      aps.patch_normalisation.length := by omega
  obtain ⟨algs, hloop, hlen, hget⟩ :=
    set_up_loop_ok aps cls udc _ 0 hb1 hb2
  refine ⟨_, algs, gn_init_ok aps cls ns udc sp svs algs hns hsp hloop, rfl,
    by omega, ?_⟩
  intro j hj
  have hza := getElem?_eq_some_getD aps.appearance_models j (by omega)
  have hzs := getElem?_eq_some_getD aps.shape_models j (by omega)
  have hzd := getElem?_eq_some_getD aps.deformation_models j (by omega)
  have hzv := getElem?_eq_some_getD svs j (by omega)
  have hzip := zip4_getElem?_eq_some aps.appearance_models aps.shape_models
    aps.deformation_models svs j _ _ _ _ hza hzs hzd hzv
  have := hget j _ _ _ _ hzip
  simpa [loopAlg] using this

/-- C2: after `GaussNewtonAPSFitter` construction on a well-formed model, the
point-distribution-model wrapper inside every one of the `N` per-scale
algorithms' interfaces is the Procrustes-normalized variant `OrthoPDM` when
the model's `use_procrustes` flag is true, and the plain variant `PDM` when it
is false — uniformly for all scales. -/
theorem gn_fitter_pdm_variant_uniform (aps : APS) (cls : GNAlgCls)
    (ns : NShapeSpec) (udc : Bool) (sp : SamplingSpec)
    (svs : List SamplingValue)
    (hns : check_n_shape ns aps.n_scales = Except.ok ())
    (hsp : check_sampling sp aps.n_scales = Except.ok svs)
    (ham : aps.appearance_models.length = aps.n_scales)
    (hsm : aps.shape_models.length = aps.n_scales)
    (hdm : aps.deformation_models.length = aps.n_scales)
    (hps : aps.patch_shape.length = aps.n_scales)
    (hpn : aps.patch_normalisation.length = aps.n_scales) :
    ∃ f algs, GaussNewtonAPSFitter_init aps cls ns udc sp = Except.ok f ∧
      f.algorithms = some algs ∧ algs.length = aps.n_scales ∧
      ∀ alg ∈ algs,
        (aps.use_procrustes = true →
          ∃ sm, alg.interface.pdm = PDMWrapper.OrthoPDM sm) ∧
        (aps.use_procrustes = false →
          ∃ sm, alg.interface.pdm = PDMWrapper.PDM sm) := by
  have hsvs : svs.length = aps.n_scales := check_sampling_length hsp
  have hz : (zip4 aps.appearance_models aps.shape_models
      aps.deformation_models svs).length = aps.n_scales := by
    rw [zip4_length, ham, hsm, hdm, hsvs]
    omega
  have hb1 : 0 + (zip4 aps.appearance_models aps.shape_models
      aps.deformation_models svs).length ≤ aps.patch_shape.length := by omega
  have hb2 : 0 + (zip4 aps.appearance_models aps.shape_models
      aps.deformation_models svs).length ≤
      aps.patch_normalisation.length := by omega
  obtain ⟨algs, hloop, hlen, hget⟩ :=
    set_up_loop_ok aps cls udc _ 0 hb1 hb2
  exact ⟨_, algs, gn_init_ok aps cls ns udc sp svs algs hns hsp hloop, rfl,
    by omega, set_up_loop_pdm aps cls udc _ 0 algs hloop⟩

/-- C3 counterexample: on the degenerate model `apsB` (which declares two
scales but holds single-entry sub-model lists), construction neither raises
nor builds all `N = 2` algorithms: it returns successfully with a single
algorithm, refuting the claim that construction always either raises or
returns a fitter with all `N` algorithms built. -/
theorem gn_ctor_not_all_or_nothing_counterexample :
    (GaussNewtonAPSFitter_init apsB GNAlgCls.Inverse NShapeSpec.noSelection
        true (SamplingSpec.single SamplingValue.noSampling)).map
      (fun f => f.algorithms.map List.length) = Except.ok (some 1) ∧
    apsB.n_scales = 2 :=
  ⟨rfl, rfl⟩

/-- C3 amended: for every input, `GaussNewtonAPSFitter` construction either
raises (and then no fitter object is observable — only the error), or returns
a fitter whose state is exactly the model stored, the validator-normalized
sampling list, and the algorithms list produced by the per-scale wiring loop
(which has exactly `N` entries whenever the model's per-scale lists each have
length `N`). -/
theorem gn_ctor_all_or_nothing (aps : APS) (cls : GNAlgCls) (ns : NShapeSpec)
    (udc : Bool) (sp : SamplingSpec) :
    (∃ e, GaussNewtonAPSFitter_init aps cls ns udc sp = Except.error e) ∨
    (∃ svs algs, check_sampling sp aps.n_scales = Except.ok svs ∧
      set_up_loop aps cls udc 0
        (zip4 aps.appearance_models aps.shape_models aps.deformation_models
          svs) = Except.ok algs ∧
      GaussNewtonAPSFitter_init aps cls ns udc sp =
        Except.ok
          { _model := some aps
            _sampling := some svs
            algorithms := some algs
            _scales := none
            _reference_shape := none
            _holistic_features := none }) :=
  gn_init_cases aps cls ns udc sp

/-- C4: when the shape-component validator accepts, a sampling specification
whose entry count disagrees with the model's scale count makes construction
fail with exactly the validation error the external sampling-check routine
raises, before any algorithm object is built; and any specification the
routine normalizes successfully does not fail construction at this step —
construction proceeds to the wiring stage. -/
theorem gn_ctor_sampling_count_validation (aps : APS) (cls : GNAlgCls)
    (ns : NShapeSpec) (udc : Bool)
    (hns : check_n_shape ns aps.n_scales = Except.ok ()) :
    (∀ vs : List SamplingValue, vs.length ≠ aps.n_scales →
      check_sampling (SamplingSpec.list vs) aps.n_scales =
          Except.error PyError.valueError ∧
        GaussNewtonAPSFitter_init aps cls ns udc (SamplingSpec.list vs) =
          Except.error PyError.valueError) ∧
    (∀ sp svs, check_sampling sp aps.n_scales = Except.ok svs →
      GaussNewtonAPSFitter_init aps cls ns udc sp =
        set_up { _model := some aps, _sampling := some svs } cls udc) := by
  constructor
  · intro vs hv
    have hcs : check_sampling (SamplingSpec.list vs) aps.n_scales =
        Except.error PyError.valueError := by
      simp [check_sampling, hv]
    exact ⟨hcs, gn_init_err_sampling aps cls ns udc _ _ hns hcs⟩
  · intro sp svs hsp
    simp only [GaussNewtonAPSFitter_init, emptyFitter, bind, Except.bind, hns,
      hsp]

/-- C5: for every trained model with `N` scales and every exactly-`N`-length
explicit sampling list, construction succeeds and the solver interface of the
`j`-th algorithm receives the `j`-th sampling entry, the `j`-th patch shape,
and the `j`-th patch-normalisation method — index alignment across the
parallel per-scale lists. -/
theorem gn_interface_index_alignment (aps : APS) (cls : GNAlgCls)
    (ns : NShapeSpec) (udc : Bool) (vs : List SamplingValue)
    (hns : check_n_shape ns aps.n_scales = Except.ok ())
    (hv : vs.length = aps.n_scales)
    (ham : aps.appearance_models.length = aps.n_scales)
    (hsm : aps.shape_models.length = aps.n_scales)
    (hdm : aps.deformation_models.length = aps.n_scales)
    (hps : aps.patch_shape.length = aps.n_scales)
    (hpn : aps.patch_normalisation.length = aps.n_scales) :
    ∃ f algs, GaussNewtonAPSFitter_init aps cls ns udc (SamplingSpec.list vs)
        = Except.ok f ∧
      f.algorithms = some algs ∧ algs.length = aps.n_scales ∧
      ∀ j, j < aps.n_scales → ∃ alg, algs[j]? = some alg ∧
        alg.interface.sampling = vs.getD j default ∧
        alg.interface.patch_shape = aps.patch_shape.getD j default ∧
        alg.interface.patch_normalisation =
          aps.patch_normalisation.getD j default := by
  have hsp : check_sampling (SamplingSpec.list vs) aps.n_scales =
      Except.ok vs := by
    simp [check_sampling, hv]
  obtain ⟨algs, hinit, hlen, hget⟩ := gn_init_full aps cls ns udc
    (SamplingSpec.list vs) vs hns hsp ham hsm hdm hps hpn
  refine ⟨_, algs, hinit, rfl, hlen, ?_⟩
  intro j hj
  exact ⟨_, hget j hj, rfl, rfl, rfl⟩

/-- C6: the `aps` accessor of a fitter returns exactly the trained-model
object passed at construction, both for the base `APSFitter` and for a
successfully constructed `GaussNewtonAPSFitter`. -/
theorem aps_accessor_returns_model :
    (∀ (α : Type) (aps : APS) (algorithms : List α),
      (APSFitter_init aps algorithms).aps = some aps) ∧
    (∀ (aps : APS) (cls : GNAlgCls) (ns : NShapeSpec) (udc : Bool)
        (sp : SamplingSpec) (f : FitterState GNAlgorithm),
      GaussNewtonAPSFitter_init aps cls ns udc sp = Except.ok f →
        f.aps = some aps) := by
  constructor
  · intro α aps algorithms
    rfl
  · intro aps cls ns udc sp f h
    rcases gn_init_cases aps cls ns udc sp with ⟨e, he⟩ |
      ⟨svs, algs, _, _, hok⟩
    · rw [he] at h
      cases h
    · rw [hok] at h
      cases h
      rfl

/-- C7: for every scale `j`, the fitting template handed to that scale's
solver-interface wrapper equals the mean instance of that scale's appearance
model. -/
theorem gn_template_is_appearance_mean (aps : APS) (cls : GNAlgCls)
    (ns : NShapeSpec) (udc : Bool) (sp : SamplingSpec)
    (svs : List SamplingValue)
    (hns : check_n_shape ns aps.n_scales = Except.ok ())
    (hsp : check_sampling sp aps.n_scales = Except.ok svs)
    (ham : aps.appearance_models.length = aps.n_scales)
    (hsm : aps.shape_models.length = aps.n_scales)
    (hdm : aps.deformation_models.length = aps.n_scales)
    (hps : aps.patch_shape.length = aps.n_scales)
    (hpn : aps.patch_normalisation.length = aps.n_scales) :
    ∃ f algs, GaussNewtonAPSFitter_init aps cls ns udc sp = Except.ok f ∧
      f.algorithms = some algs ∧
      ∀ j, j < aps.n_scales → ∃ alg, algs[j]? = some alg ∧
        alg.interface.template =
          AppearanceModel.mean (aps.appearance_models.getD j default) := by
  obtain ⟨algs, hinit, hlen, hget⟩ := gn_init_full aps cls ns udc sp svs hns
    hsp ham hsm hdm hps hpn
  refine ⟨_, algs, hinit, rfl, ?_⟩
  intro j hj
  exact ⟨_, hget j hj, rfl⟩

/-- C8: the result-packaging operation builds one `APSResult` from exactly its
inputs plus the fitter's stored scales, performs no validation of list
lengths (the lists are arbitrary and unconstrained), and leaves the fitter
object unchanged. -/
theorem fitter_result_packages_inputs (α : Type) (f : FitterState α)
    (image : Image) (algorithm_results : List AlgResultObj)
    (affine_transforms : List AffineT) (scale_transforms : List ScaleT)
    (gt_shape : Option Shape) (sc : List Scale)
    (hsc : f._scales = some sc) :
    fitter_result f image algorithm_results affine_transforms scale_transforms
        gt_shape =
      Except.ok
        ({ results := algorithm_results
           scales := sc
           affine_transforms := affine_transforms
           scale_transforms := scale_transforms
           image := image
           gt_shape := gt_shape }, f) := by
  simp [fitter_result, hsc]

/-- C9: when any of the model's appearance, shape or deformation lists is
shorter than the declared scale count while the sampling specification
validates to the scale count, construction does not raise at the wiring step:
the zip silently truncates and the algorithms list has the length of the
shortest of the four zipped lists, strictly below the scale count. -/
theorem gn_ctor_silent_truncation (aps : APS) (cls : GNAlgCls)
    (ns : NShapeSpec) (udc : Bool) (sp : SamplingSpec)
    (svs : List SamplingValue)
    (hns : check_n_shape ns aps.n_scales = Except.ok ())
    (hsp : check_sampling sp aps.n_scales = Except.ok svs)
    (hshort : min aps.appearance_models.length
        (min aps.shape_models.length aps.deformation_models.length) <
      aps.n_scales)
    (hps : aps.patch_shape.length = aps.n_scales)
    (hpn : aps.patch_normalisation.length = aps.n_scales) :
    ∃ f algs, GaussNewtonAPSFitter_init aps cls ns udc sp = Except.ok f ∧
      f.algorithms = some algs ∧
      algs.length = min aps.appearance_models.length
        (min aps.shape_models.length
          (min aps.deformation_models.length svs.length)) ∧
      algs.length < aps.n_scales := by
  have hsvs : svs.length = aps.n_scales := check_sampling_length hsp
  have hz := zip4_length aps.appearance_models aps.shape_models
    aps.deformation_models svs
  have hb1 : 0 + (zip4 aps.appearance_models aps.shape_models
      aps.deformation_models svs).length ≤ aps.patch_shape.length := by omega
  have hb2 : 0 + (zip4 aps.appearance_models aps.shape_models
      aps.deformation_models svs).length ≤
      aps.patch_normalisation.length := by omega
  obtain ⟨algs, hloop, hlen, _⟩ := set_up_loop_ok aps cls udc _ 0 hb1 hb2
  exact ⟨_, algs, gn_init_ok aps cls ns udc sp svs algs hns hsp hloop, rfl,
    by omega, by omega⟩

/-- C10: `GaussNewtonAPSFitter`'s constructor never invokes the base
initializer: a successfully constructed fitter has exactly the stored model,
the normalized sampling list and the algorithms list assigned, while the
attributes the orchestration base would set (scales, reference shape,
holistic features) were never assigned. -/
theorem gn_ctor_never_calls_base_init (aps : APS) (cls : GNAlgCls)
    (ns : NShapeSpec) (udc : Bool) (sp : SamplingSpec)
    (f : FitterState GNAlgorithm)
    (h : GaussNewtonAPSFitter_init aps cls ns udc sp = Except.ok f) :
    f._model = some aps ∧
    (∃ svs, check_sampling sp aps.n_scales = Except.ok svs ∧
      f._sampling = some svs) ∧
    (∃ algs, f.algorithms = some algs) ∧
    f._scales = none ∧ f._reference_shape = none ∧
    f._holistic_features = none := by
  rcases gn_init_cases aps cls ns udc sp with ⟨e, he⟩ |
    ⟨svs, algs, hsp, _, hok⟩
  · rw [he] at h
    cases h
  · rw [hok] at h
    cases h
    exact ⟨rfl, ⟨svs, hsp, rfl⟩, ⟨algs, rfl⟩, rfl, rfl, rfl⟩

/-! Witnesses: each theorem with hypotheses applied at a concrete input. -/

/-- C1 witness: the characterization applied to the concrete two-scale model
`apsA` with the default constructor arguments. -/
theorem gn_fitter_builds_n_algorithms_witness :
    ∃ f algs, GaussNewtonAPSFitter_init apsA GNAlgCls.Inverse
        NShapeSpec.noSelection true
        (SamplingSpec.single SamplingValue.noSampling) = Except.ok f ∧
      f.algorithms = some algs ∧ algs.length = apsA.n_scales ∧
      ∀ j, j < apsA.n_scales →
        algs[j]? = some
          { cls := GNAlgCls.Inverse
            interface :=
              { appearance_model := apsA.appearance_models.getD j default
                deformation_model := apsA.deformation_models.getD j default
                pdm := if apsA.use_procrustes then
                         PDMWrapper.OrthoPDM (apsA.shape_models.getD j default)
                       else PDMWrapper.PDM (apsA.shape_models.getD j default)
                use_deformation_cost := true
                template :=
                  (apsA.appearance_models.getD j default).mean
                sampling :=
                  (List.replicate 2 SamplingValue.noSampling).getD j default
                patch_shape := apsA.patch_shape.getD j default
                patch_normalisation :=
                  apsA.patch_normalisation.getD j default } } :=
  gn_fitter_builds_n_algorithms_in_scale_order apsA GNAlgCls.Inverse
    NShapeSpec.noSelection true (SamplingSpec.single SamplingValue.noSampling)
    (List.replicate 2 SamplingValue.noSampling) rfl rfl rfl rfl rfl rfl rfl

/-- C2 witness: the PDM-variant property applied to the concrete model
`apsA` (whose Procrustes flag is set). -/
theorem gn_fitter_pdm_variant_witness :
    ∃ f algs, GaussNewtonAPSFitter_init apsA GNAlgCls.Inverse
        NShapeSpec.noSelection true
        (SamplingSpec.single SamplingValue.noSampling) = Except.ok f ∧
      f.algorithms = some algs ∧ algs.length = apsA.n_scales ∧
      ∀ alg ∈ algs,
        (apsA.use_procrustes = true →
          ∃ sm, alg.interface.pdm = PDMWrapper.OrthoPDM sm) ∧
        (apsA.use_procrustes = false →
          ∃ sm, alg.interface.pdm = PDMWrapper.PDM sm) :=
  gn_fitter_pdm_variant_uniform apsA GNAlgCls.Inverse NShapeSpec.noSelection
    true (SamplingSpec.single SamplingValue.noSampling)
    (List.replicate 2 SamplingValue.noSampling) rfl rfl rfl rfl rfl rfl rfl

/-- C4 witness: an empty sampling list is rejected for the two-scale model
`apsA` with the validator's error, and a single sampling value passes the
sampling step. -/
theorem gn_ctor_sampling_count_validation_witness :
    (check_sampling (SamplingSpec.list []) apsA.n_scales =
        Except.error PyError.valueError ∧
      GaussNewtonAPSFitter_init apsA GNAlgCls.Inverse NShapeSpec.noSelection
          true (SamplingSpec.list []) = Except.error PyError.valueError) ∧
    GaussNewtonAPSFitter_init apsA GNAlgCls.Inverse NShapeSpec.noSelection
        true (SamplingSpec.single SamplingValue.noSampling) =
      set_up
        { _model := some apsA
          _sampling := some (List.replicate 2 SamplingValue.noSampling) }
        GNAlgCls.Inverse true :=
  ⟨(gn_ctor_sampling_count_validation apsA GNAlgCls.Inverse
      NShapeSpec.noSelection true rfl).1 [] (by decide),
   (gn_ctor_sampling_count_validation apsA GNAlgCls.Inverse
      NShapeSpec.noSelection true rfl).2
     (SamplingSpec.single SamplingValue.noSampling)
     (List.replicate 2 SamplingValue.noSampling) rfl⟩

/-- C5 witness: index alignment applied to `apsA` with an explicit two-entry
sampling list. -/
theorem gn_interface_index_alignment_witness :
    ∃ f algs, GaussNewtonAPSFitter_init apsA GNAlgCls.Inverse
        NShapeSpec.noSelection true
        (SamplingSpec.list [SamplingValue.step 3,
          SamplingValue.mask [true, false]]) = Except.ok f ∧
      f.algorithms = some algs ∧ algs.length = apsA.n_scales ∧
      ∀ j, j < apsA.n_scales → ∃ alg, algs[j]? = some alg ∧
        alg.interface.sampling =
          [SamplingValue.step 3, SamplingValue.mask [true, false]].getD j
            default ∧
        alg.interface.patch_shape = apsA.patch_shape.getD j default ∧
        alg.interface.patch_normalisation =
          apsA.patch_normalisation.getD j default :=
  gn_interface_index_alignment apsA GNAlgCls.Inverse NShapeSpec.noSelection
    true [SamplingValue.step 3, SamplingValue.mask [true, false]]
    rfl rfl rfl rfl rfl rfl rfl

/-- C6 witness: the accessor property applied to the base fitter and to the
concretely constructed Gauss-Newton fitter on `apsA`. -/
theorem aps_accessor_returns_model_witness :
    (APSFitter_init apsA ([] : List Nat)).aps = some apsA ∧
    fitterA.aps = some apsA :=
  ⟨aps_accessor_returns_model.1 Nat apsA [],
   aps_accessor_returns_model.2 apsA GNAlgCls.Inverse NShapeSpec.noSelection
     true (SamplingSpec.single SamplingValue.noSampling) fitterA rfl⟩

/-- C7 witness: the template property applied to `apsA`. -/
theorem gn_template_is_appearance_mean_witness :
    ∃ f algs, GaussNewtonAPSFitter_init apsA GNAlgCls.Inverse
        NShapeSpec.noSelection true
        (SamplingSpec.single SamplingValue.noSampling) = Except.ok f ∧
      f.algorithms = some algs ∧
      ∀ j, j < apsA.n_scales → ∃ alg, algs[j]? = some alg ∧
        alg.interface.template =
          AppearanceModel.mean (apsA.appearance_models.getD j default) :=
  gn_template_is_appearance_mean apsA GNAlgCls.Inverse NShapeSpec.noSelection
    true (SamplingSpec.single SamplingValue.noSampling)
    (List.replicate 2 SamplingValue.noSampling) rfl rfl rfl rfl rfl rfl rfl

/-- C8 witness: result packaging applied to a concretely constructed base
fitter with empty per-scale lists (no length validation occurs). -/
theorem fitter_result_packages_inputs_witness :
    fitter_result (APSFitter_init apsA ([] : List Nat)) ⟨0⟩ [] [] [] none =
      Except.ok
        ({ results := []
           scales := apsA.scales
           affine_transforms := []
           scale_transforms := []
           image := ⟨0⟩
           gt_shape := none }, APSFitter_init apsA ([] : List Nat)) :=
  fitter_result_packages_inputs Nat (APSFitter_init apsA []) ⟨0⟩ [] [] []
    none apsA.scales rfl

/-- C9 witness: silent truncation applied to the degenerate model `apsB`. -/
theorem gn_ctor_silent_truncation_witness :
    ∃ f algs, GaussNewtonAPSFitter_init apsB GNAlgCls.Inverse
        NShapeSpec.noSelection true
        (SamplingSpec.single SamplingValue.noSampling) = Except.ok f ∧
      f.algorithms = some algs ∧
      algs.length = min apsB.appearance_models.length
        (min apsB.shape_models.length
          (min apsB.deformation_models.length
            (List.replicate 2 SamplingValue.noSampling).length)) ∧
      algs.length < apsB.n_scales :=
  gn_ctor_silent_truncation apsB GNAlgCls.Inverse NShapeSpec.noSelection true
    (SamplingSpec.single SamplingValue.noSampling)
    (List.replicate 2 SamplingValue.noSampling) rfl rfl (by decide) rfl rfl

/-- C10 witness: the attribute inventory applied to the concretely constructed
Gauss-Newton fitter on `apsA`. -/
theorem gn_ctor_never_calls_base_init_witness :
    fitterA._model = some apsA ∧
    (∃ svs, check_sampling (SamplingSpec.single SamplingValue.noSampling)
        apsA.n_scales = Except.ok svs ∧ fitterA._sampling = some svs) ∧
    (∃ algs, fitterA.algorithms = some algs) ∧
    fitterA._scales = none ∧ fitterA._reference_shape = none ∧
    fitterA._holistic_features = none :=
  gn_ctor_never_calls_base_init apsA GNAlgCls.Inverse NShapeSpec.noSelection
    true (SamplingSpec.single SamplingValue.noSampling) fitterA rfl

end APSVerify
